import Mathlib

/-!
# Attendance backend (`src/index.js`): shallow embedding and verified properties

The Express application of `src/index.js` is embedded as pure functions over explicit
collections.  A MongoDB collection is the list of its documents in insertion order;
`findOne` returns the first matching document, `updateOne` rewrites the first matching
document, `create` / `save` append.  A parsed JSON object is the list of its string-valued
members; reading a member that is not there gives `none` (JavaScript `undefined`).
The libraries bcryptjs and jsonwebtoken, and what Mongoose does with the members of a
submitted object outside the declared schema paths, are parameters of the embedding.
Requests are processed one at a time (no interleaving of handlers).
-/

namespace AttendanceApp

/-! ## Requests, responses, failures -/

/-- A parsed JSON object (`req.body`, an element of the body array, `req.query`). -/
abbrev Obj := List (String × String)

/-- Property read `o.k`; `none` is JavaScript `undefined`. -/
def Obj.get (o : Obj) (k : String) : Option String :=
  o.lookup k

/-- An error thrown by a library call and caught by a handler's `catch`.
`validation m ps`: Mongoose `ValidationError` of model `m` on paths `ps`;
`duplicateKey`: MongoDB E11000 (`error.code === 11000`) on a unique index;
`illegalArguments`: bcryptjs called with a non-string argument;
`typeError`: a JavaScript `TypeError`, as `for ... of` over a value that is not iterable. -/
inductive Failure where
  | validation (model : String) (paths : List String)
  | duplicateKey (model : String) (path : String)
  | illegalArguments
  | typeError
deriving DecidableEq, Repr

/-- A stored document of `AttendanceModel` (`attendanceSchema`, lines 72-79). `_id` is
`some id` for an ObjectId taken from the submitted object and `none` for an ObjectId that
Mongoose generated, which differs from every other one. -/
structure AttendanceDoc where
  _id : Option String
  rollnum : Option String
  name : Option String
  branch : Option String
  year : Option String
  date : Option String
  attendance : Option String
deriving DecidableEq, Repr

/-- A stored document of `Student` (`studentSchema`, lines 61-67); the unused `attendance`
map, `_id` and the timestamps are left out. -/
structure StudentDoc where
  name : Option String
  rollnum : Option String
  branch : Option String
  year : Option String
deriving DecidableEq, Repr

/-- What a handler hands to `res.send` / `res.json`. `failure ctx e` is the text
`ctx + error.message` of a `catch` branch. -/
inductive Payload where
  | text (s : String)
  | failure (context : String) (e : Failure)
  | login (message : String) (token : String)
  | student (s : StudentDoc)
  | students (l : List StudentDoc)
  | attendance (a : Option String)
deriving DecidableEq, Repr

/-- An HTTP response: status code and body. -/
structure Response where
  status : Nat
  body : Payload
deriving DecidableEq, Repr

/-! ## Request bodies -/

/-- The parsed JSON body of a request (`express.json()` accepts objects and arrays). -/
inductive Body where
  | obj (o : Obj)
  | arr (items : List Obj)
deriving DecidableEq, Repr

/-- Destructuring `const { a, b } = req.body`: an array has none of the named members. -/
def Body.asObj : Body → Obj
  | .obj o => o
  | .arr _ => []

/-! ## Attendance ledger -/

/-- Mongoose `required: true` on a String path: the value is a non-empty string. -/
def requiredString (v : Option String) : Bool :=
  match v with
  | some s => s != ""
  | none => false

/-- Mongoose `enum: ["Present", "Absent"]` validator; it is not run on `undefined`. -/
def attendanceEnum (v : Option String) : Bool :=
  match v with
  | some s => s == "Present" || s == "Absent"
  | none => true

/-- The filter `{ rollnum, date }` applied to one document. -/
def matchesKey (rollnum date : Option String) (d : AttendanceDoc) : Bool :=
  decide (d.rollnum = rollnum) && decide (d.date = date)

/-- Mongoose `AttendanceModel.findOne({ rollnum, date })`: the first matching document. -/
def AttendanceModel.findOne (coll : List AttendanceDoc) (rollnum date : Option String) :
    Option AttendanceDoc :=
  coll.find? (matchesKey rollnum date)

/-- Library Mongoose, the part of `AttendanceModel.create(record)` that the source does
not show: the members of `record` outside the paths declared in `attendanceSchema`, that is
the implicit paths `_id` (ObjectId) and `__v` (Number) and the virtual `id`.
`implicitPaths record` is `.error paths` when these paths fail to cast, `.ok (some id)`
when the document gets the submitted ObjectId `id`, and `.ok none` when Mongoose generates
the ObjectId. -/
structure Mongoose where
  implicitPaths : Obj → Except (List String) (Option String)

/-- The document Mongoose builds from `record`: the ObjectId, the declared paths (strict
mode drops any other member), `attendance` defaulting to `"Absent"`. -/
def AttendanceModel.cast (id : Option String) (record : Obj) : AttendanceDoc :=
  { _id := id
    rollnum := record.get "rollnum"
    name := record.get "name"
    branch := record.get "branch"
    year := record.get "year"
    date := record.get "date"
    attendance := some ((record.get "attendance").getD "Absent") }

/-- The paths of a document that fail schema validation. -/
def AttendanceModel.invalidPaths (doc : AttendanceDoc) : List String :=
  (if requiredString doc.date then [] else ["date"]) ++
  (if attendanceEnum doc.attendance then [] else ["attendance"])

/-- The unique index on `_id`: a submitted ObjectId that a stored document already has. -/
def AttendanceModel.duplicateId (coll : List AttendanceDoc) (id : Option String) : Bool :=
  match id with
  | none => false
  | some i => coll.any (fun d => decide (d._id = some i))

/-- Mongoose `AttendanceModel.create(record)`: cast, validate, insert. A failed cast is
reported with the validation errors; the insert fails on a duplicate `_id`. -/
def AttendanceModel.create (m : Mongoose) (coll : List AttendanceDoc) (record : Obj) :
    Except Failure (List AttendanceDoc) :=
  match m.implicitPaths record with
  | .error paths =>
    .error (.validation "Attendance"
      (paths ++ AttendanceModel.invalidPaths (AttendanceModel.cast none record)))
  | .ok id =>
    if AttendanceModel.invalidPaths (AttendanceModel.cast id record) ≠ [] then
      .error (.validation "Attendance"
        (AttendanceModel.invalidPaths (AttendanceModel.cast id record)))
    else if AttendanceModel.duplicateId coll id then .error (.duplicateKey "Attendance" "_id")
    else .ok (coll ++ [AttendanceModel.cast id record])

/-- The first document matching `{ rollnum, date }` gets the status `attendance`. -/
def AttendanceModel.setFirst (coll : List AttendanceDoc) (rollnum date : Option String)
    (attendance : String) : List AttendanceDoc :=
  match coll with
  | [] => []
  | d :: rest =>
    if matchesKey rollnum date d then { d with attendance := some attendance } :: rest
    else d :: AttendanceModel.setFirst rest rollnum date attendance

/-- Mongoose `AttendanceModel.updateOne({ rollnum, date }, { $set: { attendance } })`:
the first matching document gets the new `attendance`; update validators are off. An
`undefined` value is stripped from `$set`, and the update then writes nothing. -/
def AttendanceModel.updateOne (coll : List AttendanceDoc) (rollnum date : Option String)
    (attendance : Option String) : List AttendanceDoc :=
  match attendance with
  | none => coll
  | some a => AttendanceModel.setFirst coll rollnum date a

/-- The `for (let record of data)` loop of POST /addAttendance (lines 179-186).
Returns the error that left the loop, if any, and the collection at that moment. -/
def addAttendanceLoop (m : Mongoose) (coll : List AttendanceDoc) :
    List Obj → Option Failure × List AttendanceDoc
  | [] => (none, coll)
  | record :: rest =>
    match AttendanceModel.findOne coll (record.get "rollnum") (record.get "date") with
    | none =>
      match AttendanceModel.create m coll record with
      | .error e => (some e, coll)
      | .ok coll' => addAttendanceLoop m coll' rest
    | some _ =>
      addAttendanceLoop m
        (AttendanceModel.updateOne coll (record.get "rollnum") (record.get "date")
          (record.get "attendance")) rest

/-- Handler of POST /addAttendance (lines 176-191), after the auth gate. -/
def addAttendance (m : Mongoose) (coll : List AttendanceDoc) (data : Body) :
    Response × List AttendanceDoc :=
  match data with
  | .obj _ => (⟨500, .failure "Error updating attendance: " .typeError⟩, coll)
  | .arr records =>
    match addAttendanceLoop m coll records with
    | (none, coll') => (⟨200, .text "Attendance added/updated successfully!"⟩, coll')
    | (some e, coll') => (⟨500, .failure "Error updating attendance: " e⟩, coll')

/-- Handler of GET /studentAttendance (lines 204-213), after the auth gate. -/
def studentAttendance (coll : List AttendanceDoc) (query : Obj) : Response :=
  match AttendanceModel.findOne coll (query.get "rollnum") (query.get "date") with
  | none => ⟨200, .attendance (some "Absent")⟩
  | some d => ⟨200, .attendance d.attendance⟩

/-- The composite key of a stored record. -/
def keyOf (d : AttendanceDoc) : Option String × Option String :=
  (d.rollnum, d.date)

/-- No two records of the ledger share (rollnum, date). -/
def UniqueKeys (coll : List AttendanceDoc) : Prop :=
  (coll.map keyOf).Nodup

instance (coll : List AttendanceDoc) : Decidable (UniqueKeys coll) := by
  unfold UniqueKeys; infer_instance

/-! ## Password hasher and token service (libraries, taken as parameters) -/

/-- The process-wide signing secret (line 8). -/
def secretKey : String := "Global coding club"

/-- Library bcryptjs. `hash plaintext rounds salt` is `bcrypt.hash(plaintext, rounds)` for the
random salt drawn by that call; `compare` is `bcrypt.compare`. A bcrypt digest is a
60-character string, hence never empty. -/
structure Bcrypt where
  hash : String → Nat → Nat → String
  compare : String → String → Bool
  hash_nonempty : ∀ p r s, hash p r s ≠ ""

/-- The payload `jwt.verify` returns: the signed members plus `iat` and `exp`. -/
structure Claims where
  id : Nat
  username : String
  iat : Nat
  exp : Nat
deriving DecidableEq, Repr

/-- The ways `jwt.verify` throws. -/
inductive JwtError where
  | invalidSignature
  | expired
  | malformed
deriving DecidableEq, Repr

/-- Library jsonwebtoken. `sign id username secret expiresIn now` is
`jwt.sign({ id, username }, secret, { expiresIn })` called at time `now` (seconds);
`verify token secret now` is `jwt.verify(token, secret)` called at time `now`. -/
structure Jwt where
  sign : Nat → String → String → Nat → Nat → String
  verify : String → String → Nat → Except JwtError Claims

/-- What a request finds around it: the three libraries, the clock, the salt the next
`bcrypt.hash` draws and the ObjectId the next `new Model(...)` gets. -/
structure Env where
  bcrypt : Bcrypt
  jwt : Jwt
  mongoose : Mongoose
  now : Nat
  salt : Nat
  objectId : Nat

/-- Uses of the token service and the hand-over to the route handler, in call order. -/
inductive Event where
  | jwtSign (id : Nat) (username : String)
  | jwtVerify (token : String)
  | next
deriving DecidableEq, Repr

/-- Call `bcrypt.hash(password, rounds)`: bcryptjs throws on a non-string password. -/
def bcryptHash (b : Bcrypt) (password : Option String) (rounds salt : Nat) :
    Except Failure String :=
  match password with
  | none => .error .illegalArguments
  | some p => .ok (b.hash p rounds salt)

/-- Call `bcrypt.compare(password, digest)`: bcryptjs throws on a non-string password. -/
def bcryptCompare (b : Bcrypt) (password : Option String) (digest : String) :
    Except Failure Bool :=
  match password with
  | none => .error .illegalArguments
  | some p => .ok (b.compare p digest)

/-! ## Account directory -/

/-- A stored document of `UserModel` (`userSchema`, lines 26-36). -/
structure UserDoc where
  id : Nat
  username : String
  password : String
deriving DecidableEq, Repr

/-- Mongoose `UserModel.findOne({ username })`: the first account with that username. -/
def UserModel.findOne (users : List UserDoc) (username : Option String) : Option UserDoc :=
  users.find? (fun a => decide (some a.username = username))

/-- Mongoose `new UserModel({ username, password }).save()`: both paths are required, and
the unique index on `username` rejects a second account with the same username. -/
def UserModel.save (users : List UserDoc) (id : Nat) (username : Option String)
    (password : String) : Except Failure (List UserDoc) :=
  let bad := (if requiredString username then [] else ["username"]) ++
    (if requiredString (some password) then [] else ["password"])
  match username with
  | none => .error (.validation "User" bad)
  | some u =>
    if bad ≠ [] then .error (.validation "User" bad)
    else if users.any (fun a => a.username == u) then .error (.duplicateKey "User" "username")
    else .ok (users ++ [⟨id, u, password⟩])

/-- The username of the bootstrap account (line 42). -/
def defaultUsername : String := "GCC@2026"

/-- The password of the bootstrap account (line 43). -/
def defaultPassword : String := "GCC@2026T1"

/-- What `createDefaultUser` writes to the console. -/
inductive BootLog where
  | created
  | alreadyExists
  | error (e : Failure)
deriving DecidableEq, Repr

/-- Function `createDefaultUser` (lines 41-58). -/
def createDefaultUser (env : Env) (users : List UserDoc) : List UserDoc × BootLog :=
  match UserModel.findOne users (some defaultUsername) with
  | none =>
    match bcryptHash env.bcrypt (some defaultPassword) 10 env.salt with
    | .error e => (users, .error e)
    | .ok hashedPassword =>
      match UserModel.save users env.objectId (some defaultUsername) hashedPassword with
      | .error e => (users, .error e)
      | .ok users' => (users', .created)
  | some _ => (users, .alreadyExists)

/-- Handler of POST /signup (lines 84-97). -/
def signup (env : Env) (users : List UserDoc) (body : Body) : Response × List UserDoc :=
  let username := body.asObj.get "username"
  let password := body.asObj.get "password"
  match UserModel.findOne users username with
  | some _ => (⟨400, .text "Username already exists."⟩, users)
  | none =>
    match bcryptHash env.bcrypt password 10 env.salt with
    | .error e => (⟨500, .failure "Error during signup: " e⟩, users)
    | .ok hashedPassword =>
      match UserModel.save users env.objectId username hashedPassword with
      | .error e => (⟨500, .failure "Error during signup: " e⟩, users)
      | .ok users' => (⟨201, .text "User registered successfully."⟩, users')

/-- Handler of POST /login (lines 100-114). -/
def login (env : Env) (users : List UserDoc) (body : Body) : Response × List Event :=
  let username := body.asObj.get "username"
  let password := body.asObj.get "password"
  match UserModel.findOne users username with
  | none => (⟨400, .text "Invalid username or password."⟩, [])
  | some user =>
    match bcryptCompare env.bcrypt password user.password with
    | .error e => (⟨500, .failure "Error during login: " e⟩, [])
    | .ok isMatch =>
      if !isMatch then (⟨400, .text "Invalid username or password."⟩, [])
      else
        (⟨200, .login "Login successful" (env.jwt.sign user.id user.username secretKey 3600 env.now)⟩,
          [.jwtSign user.id user.username])

/-! ## Auth gate -/

/-- JavaScript `s.split(" ")` on the characters of `s`. -/
def splitSpace : List Char → List (List Char)
  | [] => [[]]
  | c :: cs =>
    if c = ' ' then [] :: splitSpace cs
    else
      match splitSpace cs with
      | [] => [[c]]
      | w :: ws => (c :: w) :: ws

/-- Expression `req.header("Authorization")?.split(" ")[1]`. -/
def bearerToken (authorization : Option String) : Option String :=
  authorization.bind (fun h => ((splitSpace h.data).map String.mk)[1]?)

/-- How `authMiddleware` ends: it answers itself, or calls `next()` with `req.user` set. -/
inductive Gate where
  | respond (r : Response)
  | next (user : Claims)
deriving DecidableEq, Repr

/-- Function `authMiddleware` (lines 117-128). -/
def authMiddleware (jwt : Jwt) (now : Nat) (authorization : Option String) :
    Gate × List Event :=
  match bearerToken authorization with
  | none => (.respond ⟨401, .text "Access denied. No token provided."⟩, [])
  | some token =>
    if token = "" then (.respond ⟨401, .text "Access denied. No token provided."⟩, [])
    else
      match jwt.verify token secretKey now with
      | .ok decoded => (.next decoded, [.jwtVerify token, .next])
      | .error _ => (.respond ⟨400, .text "Invalid token."⟩, [.jwtVerify token])

/-! ## Student roster -/

/-- The numeric `error.code` of a failure. -/
def Failure.code : Failure → Option Nat
  | .duplicateKey _ _ => some 11000
  | _ => none

/-- Mongoose `new Student(...).save()`: `rollnum` is required and uniquely indexed. -/
def Student.save (students : List StudentDoc) (doc : StudentDoc) :
    Except Failure (List StudentDoc) :=
  if !requiredString doc.rollnum then .error (.validation "Student" ["rollnum"])
  else if students.any (fun s => decide (s.rollnum = doc.rollnum)) then
    .error (.duplicateKey "Student" "rollnum")
  else .ok (students ++ [doc])

/-- Handler of POST /createStudent (lines 131-141). -/
def createStudent (students : List StudentDoc) (body : Body) : Response × List StudentDoc :=
  let newStudent : StudentDoc :=
    { name := body.asObj.get "name", rollnum := body.asObj.get "rollnum",
      branch := body.asObj.get "branch", year := body.asObj.get "year" }
  match Student.save students newStudent with
  | .ok students' => (⟨201, .student newStudent⟩, students')
  | .error e =>
    if e.code = some 11000 then (⟨400, .text "Roll number already exists."⟩, students)
    else (⟨500, .failure "Error creating student: " e⟩, students)

/-- Handler of DELETE /deleteStudent/:rollnum (lines 144-157). -/
def deleteStudent (students : List StudentDoc) (rollnum : String) : Response × List StudentDoc :=
  match students.find? (fun s => decide (s.rollnum = some rollnum)) with
  | none => (⟨404, .text "Student not found."⟩, students)
  | some _ =>
    (⟨200, .text "Student deleted successfully."⟩,
      students.eraseP (fun s => decide (s.rollnum = some rollnum)))

/-- A member of an update document: an `undefined` value is stripped and the stored value
stays. -/
def assign (value stored : Option String) : Option String :=
  match value with
  | some v => some v
  | none => stored

/-- The update `{ name, branch, year }` applied to one student. -/
def Student.apply (s : StudentDoc) (name branch year : Option String) : StudentDoc :=
  { s with name := assign name s.name, branch := assign branch s.branch,
           year := assign year s.year }

/-- Mongoose `Student.findOneAndUpdate({ rollnum }, { name, branch, year })` on the list. -/
def Student.updateFirst (students : List StudentDoc) (rollnum name branch year : Option String) :
    List StudentDoc :=
  match students with
  | [] => []
  | s :: rest =>
    if s.rollnum = rollnum then Student.apply s name branch year :: rest
    else s :: Student.updateFirst rest rollnum name branch year

/-- Handler of PUT /updateStudent (lines 160-173). -/
def updateStudent (students : List StudentDoc) (body : Body) : Response × List StudentDoc :=
  let rollnum := body.asObj.get "rollnum"
  let name := body.asObj.get "name"
  let branch := body.asObj.get "branch"
  let year := body.asObj.get "year"
  match students.find? (fun s => decide (s.rollnum = rollnum)) with
  | none => (⟨404, .text "Student not found."⟩, students)
  | some s =>
    (⟨200, .student (Student.apply s name branch year)⟩,
      Student.updateFirst students rollnum name branch year)

/-- Handler of GET /getStudentsData (lines 194-201). -/
def getStudentsData (students : List StudentDoc) : Response :=
  ⟨200, .students students⟩

/-! ## The application -/

/-- The three collections. -/
structure AppState where
  users : List UserDoc
  students : List StudentDoc
  attendance : List AttendanceDoc
deriving DecidableEq, Repr

/-- The eight registered routes. -/
inductive Route where
  | signup
  | login
  | createStudent
  | deleteStudent (rollnum : String)
  | updateStudent
  | addAttendance
  | getStudentsData
  | studentAttendance
deriving DecidableEq, Repr

/-- An incoming request. -/
structure Request where
  route : Route
  authorization : Option String
  body : Body
  query : Obj
deriving DecidableEq, Repr

/-- The result of serving a request. -/
structure Outcome where
  response : Response
  state : AppState
  events : List Event
deriving DecidableEq, Repr

/-- A route registered as `app.METHOD(path, authMiddleware, handler)`. -/
def protect (env : Env) (st : AppState) (authorization : Option String)
    (handler : Claims → Response × AppState) : Outcome :=
  match authMiddleware env.jwt env.now authorization with
  | (.respond r, events) => ⟨r, st, events⟩
  | (.next user, events) => ⟨(handler user).1, (handler user).2, events⟩

/-- The Express application: the route table of `src/index.js`. -/
def handle (env : Env) (st : AppState) (req : Request) : Outcome :=
  match req.route with
  | .signup =>
    ⟨(signup env st.users req.body).1, { st with users := (signup env st.users req.body).2 }, []⟩
  | .login =>
    ⟨(login env st.users req.body).1, st, (login env st.users req.body).2⟩
  | .createStudent =>
    protect env st req.authorization (fun _ =>
      ((createStudent st.students req.body).1,
        { st with students := (createStudent st.students req.body).2 }))
  | .deleteStudent rollnum =>
    protect env st req.authorization (fun _ =>
      ((deleteStudent st.students rollnum).1,
        { st with students := (deleteStudent st.students rollnum).2 }))
  | .updateStudent =>
    protect env st req.authorization (fun _ =>
      ((updateStudent st.students req.body).1,
        { st with students := (updateStudent st.students req.body).2 }))
  | .addAttendance =>
    protect env st req.authorization (fun _ =>
      ((addAttendance env.mongoose st.attendance req.body).1,
        { st with attendance := (addAttendance env.mongoose st.attendance req.body).2 }))
  | .getStudentsData =>
    protect env st req.authorization (fun _ => (getStudentsData st.students, st))
  | .studentAttendance =>
    protect env st req.authorization (fun _ => (studentAttendance st.attendance req.query, st))

/-- The routes registered with `authMiddleware`. -/
def protectedRoutes (rollnum : String) : List Route :=
  [.createStudent, .deleteStudent rollnum, .updateStudent, .addAttendance, .getStudentsData,
    .studentAttendance]

/-! ## Sequences of submissions -/

/-- POST /addAttendance requests served one after the other: the responses in order and
the ledger after the last one. -/
def submitAll (m : Mongoose) (coll : List AttendanceDoc) :
    List (List Obj) → List Response × List AttendanceDoc
  | [] => ([], coll)
  | batch :: rest =>
    ((addAttendance m coll (.arr batch)).1 ::
        (submitAll m (addAttendance m coll (.arr batch)).2 rest).1,
      (submitAll m (addAttendance m coll (.arr batch)).2 rest).2)

/-- A submitted record addresses the key (rollnum, date). -/
def recordHasKey (rollnum date : Option String) (record : Obj) : Bool :=
  decide (record.get "rollnum" = rollnum) && decide (record.get "date" = date)

/-- The most recently processed record with the key (rollnum, date), if any. -/
def lastSubmitted (rollnum date : Option String) (records : List Obj) : Option Obj :=
  records.reverse.find? (recordHasKey rollnum date)

/-- The status stored under a key, if a record is stored under it. -/
def statusAt (coll : List AttendanceDoc) (rollnum date : Option String) :
    Option (Option String) :=
  (AttendanceModel.findOne coll rollnum date).map (fun d => d.attendance)

/-! ## Example data -/

/-- The record of the example of the specification, with its status under `status`. -/
def specRecord : Obj :=
  [("rollnum", "R1"), ("date", "2024-01-01"), ("status", "Present"),
   ("name", "Ann"), ("branch", "CSE"), ("year", "2")]

/-- The same record with its status under `attendance`, the member the code reads. -/
def wireRecord : Obj :=
  [("rollnum", "R1"), ("date", "2024-01-01"), ("attendance", "Present"),
   ("name", "Ann"), ("branch", "CSE"), ("year", "2")]

/-- The query `?date=2024-01-01&rollnum=R1`. -/
def specQuery : Obj :=
  [("date", "2024-01-01"), ("rollnum", "R1")]

/-- A record without `date`, which `attendanceSchema` requires. -/
def undatedRecord : Obj :=
  [("rollnum", "R2"), ("attendance", "Present")]

/-- A stored record: R1 was Absent on 2024-01-01. -/
def storedAnn : AttendanceDoc :=
  ⟨none, some "R1", some "Ann", some "CSE", some "2", some "2024-01-01", some "Absent"⟩

/-- A ledger of two records. -/
def exampleLedger : List AttendanceDoc :=
  [storedAnn, ⟨none, some "R2", some "Cy", some "ECE", some "1", some "2024-01-01", some "Absent"⟩]

/-- A record for a key that is not stored, with a status outside the enum of the schema. -/
def lateRecord : Obj :=
  [("rollnum", "R9"), ("date", "2024-01-01"), ("attendance", "Late")]

/-- A batch that stores a record for a new key, repeats the key, and ends on a record
without date. -/
def repeatingBatch : List Obj :=
  [[("rollnum", "R3"), ("date", "2024-01-02"), ("attendance", "Present")],
   [("rollnum", "R3"), ("date", "2024-01-02"), ("attendance", "Absent")],
   undatedRecord]

/-- A record with an `_id` that is not an ObjectId. -/
def badIdRecord : Obj :=
  [("_id", "x"), ("rollnum", "R9"), ("date", "2024-01-01"), ("attendance", "Present")]

/-- Two records for different keys with the same `_id`. -/
def sameIdBatch : List Obj :=
  [[("_id", "0123456789abcdef01234567"), ("rollnum", "R8"), ("date", "2024-01-01")],
   [("_id", "0123456789abcdef01234567"), ("rollnum", "R9"), ("date", "2024-01-01")]]

/-- A record for the key of `storedAnn` whose other members all differ. -/
def resubmitted : Obj :=
  [("rollnum", "R1"), ("date", "2024-01-01"), ("attendance", "Present"),
   ("name", "Bob"), ("branch", "ME"), ("year", "4")]

/-! ## A small instance of the three libraries -/

/-- A hexadecimal digit. -/
def isHexDigit (c : Char) : Bool :=
  c.isDigit || ('a' ≤ c && c ≤ 'f') || ('A' ≤ c && c ≤ 'F')

/-- A toy Mongoose for the examples, which submit no `__v` and no `id`: a submitted `_id`
must be 24 hexadecimal digits and is kept; without `_id` the ObjectId is generated. -/
def toyMongoose : Mongoose :=
  ⟨fun record =>
    match record.get "_id" with
    | none => .ok none
    | some id =>
      if id.length = 24 ∧ id.data.all isHexDigit then .ok (some id) else .error ["_id"]⟩

/-- Count the leading occurrences of `c` and return the rest. -/
def countLeading (c : Char) : List Char → Nat × List Char
  | [] => (0, [])
  | x :: xs => if x = c then ((countLeading c xs).1 + 1, (countLeading c xs).2) else (0, x :: xs)

/-- A toy token: signature, id, issue time and expiry in unary, then the username. -/
def toySign (id : Nat) (username secret : String) (expiresIn now : Nat) : String :=
  String.mk (List.replicate secret.length 's' ++ '.' :: (List.replicate id 'i' ++ '.' ::
    (List.replicate now 't' ++ '.' :: (List.replicate (now + expiresIn) 'e' ++ '.' ::
      username.data))))

/-- Verification of a toy token: the signature must have the length of the secret, and the
token is expired from its expiry time on. -/
def toyVerify (token secret : String) (now : Nat) : Except JwtError Claims :=
  match countLeading 's' token.data with
  | (k, '.' :: r1) =>
    if k ≠ secret.length then .error .invalidSignature
    else
      match countLeading 'i' r1 with
      | (id, '.' :: r2) =>
        match countLeading 't' r2 with
        | (iat, '.' :: r3) =>
          match countLeading 'e' r3 with
          | (exp, '.' :: r4) =>
            if now < exp then .ok ⟨id, String.mk r4, iat, exp⟩ else .error .expired
          | _ => .error .malformed
        | _ => .error .malformed
      | _ => .error .malformed
  | _ => .error .malformed

/-- A toy token service. -/
def toyJwt : Jwt :=
  ⟨toySign, toyVerify⟩

/-- A toy hasher: the digest is the plaintext behind a marker; the salt is not used. -/
def toyBcrypt : Bcrypt where
  hash := fun p _ _ => String.mk ('$' :: p.data)
  compare := fun p digest => decide (digest = String.mk ('$' :: p.data))
  hash_nonempty := by
    intro p r s h
    have := congrArg String.data h
    simp at this

/-- A toy environment at time `now`. -/
def toyEnv (now : Nat) : Env :=
  ⟨toyBcrypt, toyJwt, toyMongoose, now, 0, 7⟩

/-- A toy token for account 1, bob, issued at 1, expiring at 2, signed with `secretKey`. -/
def bobToken : String := "ssssssssssssssssss.i.t.ee.bob"

/-- The same payload under a signature of the wrong length. -/
def forgedToken : String := "s.i.t.ee.bob"

/-- The form of Authorization header the specification asks for. -/
def bearerHeader (token : String) : String :=
  "Bearer " ++ token

/-- An empty application state. -/
def emptyState : AppState :=
  ⟨[], [], []⟩

/-- An Authorization header with another scheme word in front of `bobToken`. -/
def basicHeader : String :=
  "Basic " ++ bobToken

/-- A directory holding the account of alice, as the toy hasher stores it. -/
def aliceState : AppState :=
  ⟨[⟨7, "alice", toyBcrypt.hash "pw1" 10 0⟩], [], []⟩

/-- The accounts with the default username. -/
def defaultAccounts (users : List UserDoc) : List UserDoc :=
  users.filter (fun a => decide (a.username = defaultUsername))

/-- The accounts with another username. -/
def otherAccounts (users : List UserDoc) : List UserDoc :=
  users.filter (fun a => !decide (a.username = defaultUsername))

/-! ## Lemmas on the ledger operations -/

theorem matchesKey_iff (r dt : Option String) (d : AttendanceDoc) :
    matchesKey r dt d = true ↔ keyOf d = (r, dt) := by
  simp [matchesKey, keyOf, Prod.ext_iff]

theorem findOne_none_iff (coll : List AttendanceDoc) (r dt : Option String) :
    AttendanceModel.findOne coll r dt = none ↔ (r, dt) ∉ coll.map keyOf := by
  unfold AttendanceModel.findOne
  rw [List.find?_eq_none]
  constructor
  · intro h hmem
    rcases List.mem_map.1 hmem with ⟨d, hd, hk⟩
    exact h d hd ((matchesKey_iff r dt d).2 hk)
  · intro h d hd hm
    exact h (List.mem_map.2 ⟨d, hd, (matchesKey_iff r dt d).1 hm⟩)

theorem findOne_some_mem (coll : List AttendanceDoc) (r dt : Option String) (d : AttendanceDoc)
    (h : AttendanceModel.findOne coll r dt = some d) : (r, dt) ∈ coll.map keyOf := by
  by_contra hn
  rw [(findOne_none_iff coll r dt).2 hn] at h
  simp at h

theorem matchesKey_set_attendance (r dt a : Option String) (d : AttendanceDoc) :
    matchesKey r dt { d with attendance := a } = matchesKey r dt d := rfl

theorem setFirst_keys (coll : List AttendanceDoc) (r dt : Option String) (a : String) :
    (AttendanceModel.setFirst coll r dt a).map keyOf = coll.map keyOf := by
  induction coll with
  | nil => rfl
  | cons d rest ih =>
    unfold AttendanceModel.setFirst
    split
    · simp [keyOf]
    · simp [ih]

theorem updateOne_keys (coll : List AttendanceDoc) (r dt a : Option String) :
    (AttendanceModel.updateOne coll r dt a).map keyOf = coll.map keyOf := by
  cases a with
  | none => rfl
  | some a => exact setFirst_keys coll r dt a

theorem updateOne_length (coll : List AttendanceDoc) (r dt a : Option String) :
    (AttendanceModel.updateOne coll r dt a).length = coll.length := by
  have := congrArg List.length (updateOne_keys coll r dt a)
  simpa using this

theorem findOne_updateOne_same (coll : List AttendanceDoc) (r dt : Option String) (a : String) :
    AttendanceModel.findOne (AttendanceModel.updateOne coll r dt (some a)) r dt =
      (AttendanceModel.findOne coll r dt).map (fun d => { d with attendance := some a }) := by
  show AttendanceModel.findOne (AttendanceModel.setFirst coll r dt a) r dt = _
  induction coll with
  | nil => rfl
  | cons d rest ih =>
    unfold AttendanceModel.setFirst
    by_cases h : matchesKey r dt d = true
    · simp [AttendanceModel.findOne, List.find?, h, matchesKey_set_attendance]
    · simp only [h, if_false, Bool.false_eq_true]
      simp only [AttendanceModel.findOne, List.find?, h] at ih ⊢
      exact ih

theorem findOne_updateOne_other (coll : List AttendanceDoc) (r dt a r' dt' : Option String)
    (hne : (r', dt') ≠ (r, dt)) :
    AttendanceModel.findOne (AttendanceModel.updateOne coll r dt a) r' dt' =
      AttendanceModel.findOne coll r' dt' := by
  cases a with
  | none => rfl
  | some a =>
    show AttendanceModel.findOne (AttendanceModel.setFirst coll r dt a) r' dt' = _
    induction coll with
    | nil => rfl
    | cons d rest ih =>
      unfold AttendanceModel.setFirst
      by_cases h : matchesKey r dt d = true
      · have h' : matchesKey r' dt' d = false := by
          rw [Bool.eq_false_iff]
          intro hm
          exact hne (((matchesKey_iff r' dt' d).1 hm).symm.trans ((matchesKey_iff r dt d).1 h))
        simp [AttendanceModel.findOne, List.find?, h, h', matchesKey_set_attendance]
      · simp only [h, if_false, Bool.false_eq_true]
        simp only [AttendanceModel.findOne, List.find?] at ih ⊢
        rw [ih]

theorem updateOne_filter_other (coll : List AttendanceDoc) (r dt a : Option String) :
    (AttendanceModel.updateOne coll r dt a).filter (fun d => !matchesKey r dt d) =
      coll.filter (fun d => !matchesKey r dt d) := by
  cases a with
  | none => rfl
  | some a =>
    show (AttendanceModel.setFirst coll r dt a).filter _ = _
    induction coll with
    | nil => rfl
    | cons d rest ih =>
      unfold AttendanceModel.setFirst
      by_cases h : matchesKey r dt d = true
      · simp [List.filter, h, matchesKey_set_attendance]
      · simp only [h, if_false, Bool.false_eq_true]
        simp only [List.filter, ih]

theorem create_ok (m : Mongoose) (coll c : List AttendanceDoc) (record : Obj)
    (h : AttendanceModel.create m coll record = .ok c) :
    ∃ id, c = coll ++ [AttendanceModel.cast id record] := by
  unfold AttendanceModel.create at h
  cases hi : m.implicitPaths record with
  | error paths => simp [hi] at h
  | ok id =>
    simp only [hi] at h
    split at h
    · simp at h
    · split at h
      · simp at h
      · exact ⟨id, by simpa using h.symm⟩

theorem keyOf_cast (id : Option String) (record : Obj) :
    keyOf (AttendanceModel.cast id record) = (record.get "rollnum", record.get "date") := rfl

theorem loop_cons_created (m : Mongoose) (coll c : List AttendanceDoc) (record : Obj)
    (rest : List Obj)
    (hf : AttendanceModel.findOne coll (record.get "rollnum") (record.get "date") = none)
    (hc : AttendanceModel.create m coll record = .ok c) :
    addAttendanceLoop m coll (record :: rest) = addAttendanceLoop m c rest := by
  rw [addAttendanceLoop]
  simp only [hf, hc]

theorem loop_cons_failed (m : Mongoose) (coll : List AttendanceDoc) (record : Obj)
    (rest : List Obj) (e : Failure)
    (hf : AttendanceModel.findOne coll (record.get "rollnum") (record.get "date") = none)
    (hc : AttendanceModel.create m coll record = .error e) :
    addAttendanceLoop m coll (record :: rest) = (some e, coll) := by
  rw [addAttendanceLoop]
  simp only [hf, hc]

theorem loop_cons_update (m : Mongoose) (coll : List AttendanceDoc) (record : Obj)
    (rest : List Obj) (d : AttendanceDoc)
    (hf : AttendanceModel.findOne coll (record.get "rollnum") (record.get "date") = some d) :
    addAttendanceLoop m coll (record :: rest) =
      addAttendanceLoop m (AttendanceModel.updateOne coll (record.get "rollnum")
        (record.get "date") (record.get "attendance")) rest := by
  rw [addAttendanceLoop]
  simp only [hf]

theorem addAttendanceLoop_unique (m : Mongoose) (batch : List Obj) :
    ∀ coll : List AttendanceDoc, UniqueKeys coll →
      UniqueKeys (addAttendanceLoop m coll batch).2 := by
  induction batch with
  | nil => intro coll h; exact h
  | cons record rest ih =>
    intro coll h
    cases hf : AttendanceModel.findOne coll (record.get "rollnum") (record.get "date") with
    | none =>
      cases hc : AttendanceModel.create m coll record with
      | error e => rw [loop_cons_failed m coll record rest e hf hc]; exact h
      | ok c =>
        rw [loop_cons_created m coll c record rest hf hc]
        apply ih
        obtain ⟨id, rfl⟩ := create_ok m coll c record hc
        unfold UniqueKeys at h ⊢
        rw [List.map_append, List.nodup_append]
        refine ⟨h, by simp, ?_⟩
        intro k hk hk'
        simp only [List.map_cons, List.map_nil, List.mem_singleton, keyOf_cast] at hk'
        subst hk'
        exact (findOne_none_iff coll _ _).1 hf hk
    | some d =>
      rw [loop_cons_update m coll record rest d hf]
      apply ih
      unfold UniqueKeys at h ⊢
      rw [updateOne_keys]; exact h

theorem addAttendanceLoop_keys (m : Mongoose) (batch : List Obj) :
    ∀ coll : List AttendanceDoc,
      ∃ extra, (addAttendanceLoop m coll batch).2.map keyOf = coll.map keyOf ++ extra := by
  induction batch with
  | nil => intro coll; exact ⟨[], by simp [addAttendanceLoop]⟩
  | cons record rest ih =>
    intro coll
    cases hf : AttendanceModel.findOne coll (record.get "rollnum") (record.get "date") with
    | none =>
      cases hc : AttendanceModel.create m coll record with
      | error e => rw [loop_cons_failed m coll record rest e hf hc]; exact ⟨[], by simp⟩
      | ok c =>
        rw [loop_cons_created m coll c record rest hf hc]
        obtain ⟨id, rfl⟩ := create_ok m coll c record hc
        obtain ⟨extra, he⟩ := ih (coll ++ [AttendanceModel.cast id record])
        exact ⟨keyOf (AttendanceModel.cast id record) :: extra, by rw [he]; simp⟩
    | some d =>
      rw [loop_cons_update m coll record rest d hf]
      obtain ⟨extra, he⟩ := ih (AttendanceModel.updateOne coll (record.get "rollnum")
        (record.get "date") (record.get "attendance"))
      exact ⟨extra, by rw [he, updateOne_keys]⟩

theorem addAttendanceLoop_append (m : Mongoose) (pre : List Obj) :
    ∀ (coll coll' : List AttendanceDoc), addAttendanceLoop m coll pre = (none, coll') →
      ∀ rest, addAttendanceLoop m coll (pre ++ rest) = addAttendanceLoop m coll' rest := by
  induction pre with
  | nil =>
    intro coll coll' h rest
    simp only [addAttendanceLoop, Prod.mk.injEq, true_and] at h
    rw [List.nil_append, h]
  | cons record pre ih =>
    intro coll coll' h rest
    rw [List.cons_append]
    cases hf : AttendanceModel.findOne coll (record.get "rollnum") (record.get "date") with
    | none =>
      cases hc : AttendanceModel.create m coll record with
      | error e => rw [loop_cons_failed m coll record pre e hf hc] at h; simp at h
      | ok c =>
        rw [loop_cons_created m coll c record _ hf hc] at h ⊢
        exact ih _ _ h rest
    | some d =>
      rw [loop_cons_update m coll record _ d hf] at h ⊢
      exact ih _ _ h rest

theorem addAttendanceLoop_append_failed (m : Mongoose) (pre : List Obj) :
    ∀ (coll coll' : List AttendanceDoc) (e : Failure),
      addAttendanceLoop m coll pre = (some e, coll') →
      ∀ rest, addAttendanceLoop m coll (pre ++ rest) = (some e, coll') := by
  induction pre with
  | nil =>
    intro coll coll' e h rest
    simp [addAttendanceLoop] at h
  | cons record pre ih =>
    intro coll coll' e h rest
    rw [List.cons_append]
    cases hf : AttendanceModel.findOne coll (record.get "rollnum") (record.get "date") with
    | none =>
      cases hc : AttendanceModel.create m coll record with
      | error e' =>
        rw [loop_cons_failed m coll record _ e' hf hc] at h ⊢
        exact h
      | ok c =>
        rw [loop_cons_created m coll c record _ hf hc] at h ⊢
        exact ih _ _ e h rest
    | some d =>
      rw [loop_cons_update m coll record _ d hf] at h ⊢
      exact ih _ _ e h rest

theorem addAttendanceLoop_single_mem (m : Mongoose) (coll : List AttendanceDoc) (record : Obj)
    (h : (addAttendanceLoop m coll [record]).1 = none) :
    (record.get "rollnum", record.get "date") ∈
      (addAttendanceLoop m coll [record]).2.map keyOf := by
  cases hf : AttendanceModel.findOne coll (record.get "rollnum") (record.get "date") with
  | none =>
    cases hc : AttendanceModel.create m coll record with
    | error e => rw [loop_cons_failed m coll record [] e hf hc] at h; simp at h
    | ok c =>
      rw [loop_cons_created m coll c record [] hf hc]
      obtain ⟨id, rfl⟩ := create_ok m coll c record hc
      simp [addAttendanceLoop, keyOf_cast]
  | some d =>
    rw [loop_cons_update m coll record [] d hf]
    simp only [addAttendanceLoop, updateOne_keys]
    exact findOne_some_mem coll _ _ d hf

theorem filter_key_length_one (coll : List AttendanceDoc) (r dt : Option String)
    (hu : UniqueKeys coll) (hmem : (r, dt) ∈ coll.map keyOf) :
    (coll.filter (matchesKey r dt)).length = 1 := by
  induction coll with
  | nil => simp at hmem
  | cons d rest ih =>
    unfold UniqueKeys at hu ih
    rw [List.map_cons, List.nodup_cons] at hu
    by_cases hd : matchesKey r dt d = true
    · have hk := (matchesKey_iff r dt d).1 hd
      have hnone : rest.filter (matchesKey r dt) = [] := by
        rw [List.filter_eq_nil_iff]
        intro x hx hmx
        apply hu.1
        rw [hk]
        exact List.mem_map.2 ⟨x, hx, (matchesKey_iff r dt x).1 hmx⟩
      simp [List.filter, hd, hnone]
    · have hrest : (r, dt) ∈ rest.map keyOf := by
        rw [List.map_cons, List.mem_cons] at hmem
        rcases hmem with h | h
        · exact absurd ((matchesKey_iff r dt d).2 h.symm) hd
        · exact h
      simp only [List.filter, hd]
      exact ih hu.2 hrest

theorem addAttendance_ledger (m : Mongoose) (coll : List AttendanceDoc) (batch : List Obj) :
    (addAttendance m coll (.arr batch)).2 = (addAttendanceLoop m coll batch).2 := by
  rcases h : addAttendanceLoop m coll batch with ⟨e, c⟩
  cases e <;> simp [addAttendance, h]

theorem addAttendance_status (m : Mongoose) (coll : List AttendanceDoc) (batch : List Obj) :
    (addAttendance m coll (.arr batch)).1.status =
      if (addAttendanceLoop m coll batch).1 = none then 200 else 500 := by
  rcases h : addAttendanceLoop m coll batch with ⟨e, c⟩
  cases e <;> simp [addAttendance, h]

theorem addAttendance_ok_loop (m : Mongoose) (coll coll' : List AttendanceDoc)
    (batch : List Obj) (msg : Payload)
    (h : addAttendance m coll (.arr batch) = (⟨200, msg⟩, coll')) :
    addAttendanceLoop m coll batch = (none, coll') := by
  rcases hl : addAttendanceLoop m coll batch with ⟨e, c⟩
  cases e with
  | none => simp [addAttendance, hl] at h; rw [h.2]
  | some e => simp [addAttendance, hl] at h

theorem addAttendance_status_ok (m : Mongoose) (coll : List AttendanceDoc) (batch : List Obj)
    (h : (addAttendance m coll (.arr batch)).1.status = 200) :
    (addAttendanceLoop m coll batch).1 = none := by
  rw [addAttendance_status] at h
  by_contra hne
  simp [hne] at h

theorem create_undated_fails (m : Mongoose) (coll : List AttendanceDoc) :
    ∃ e, AttendanceModel.create m coll undatedRecord = .error e := by
  unfold AttendanceModel.create
  cases m.implicitPaths undatedRecord with
  | error paths => exact ⟨_, rfl⟩
  | ok id =>
    have h : AttendanceModel.invalidPaths (AttendanceModel.cast id undatedRecord) = ["date"] :=
      rfl
    exact ⟨.validation "Attendance" ["date"], by simp [h]⟩

/-- A submitted `_id` that is not an ObjectId: the request is answered 500 and nothing is
stored. -/
theorem addAttendance_bad_id :
    addAttendance toyMongoose [] (.arr [badIdRecord]) =
      (⟨500, .failure "Error updating attendance: " (.validation "Attendance" ["_id"])⟩, []) := by
  decide

/-- A second record with an `_id` that is already stored: the first record is stored, the
request is answered 500 on the duplicate key. -/
theorem addAttendance_duplicate_id :
    (addAttendance toyMongoose [] (.arr sameIdBatch)).1 =
      ⟨500, .failure "Error updating attendance: " (.duplicateKey "Attendance" "_id")⟩ ∧
    (addAttendance toyMongoose [] (.arr sameIdBatch)).2.length = 1 := by
  decide

/-- C1, as stated, fails in its last part: a record submitted for a key that is absent,
with a status outside the enum of the schema, is refused by `create`; the request is
answered 500 and no record is stored under the key. -/
theorem addAttendance_refused_record_leaves_none :
    UniqueKeys exampleLedger ∧
    AttendanceModel.findOne exampleLedger (lateRecord.get "rollnum") (lateRecord.get "date") =
      none ∧
    (addAttendance toyMongoose exampleLedger (.arr [lateRecord])).1.status = 500 ∧
    ((addAttendance toyMongoose exampleLedger (.arr [lateRecord])).2.filter
      (matchesKey (lateRecord.get "rollnum") (lateRecord.get "date"))).length = 0 := by
  decide

/-- C1 (amended). Uniqueness of (rollnum, date) is an invariant of POST /addAttendance:
from a ledger with no two records sharing (rollnum, date), every batch (repeating keys or
not, stopping early on an error or not) leaves a ledger with no two records sharing
(rollnum, date); and every record of the batch up to and including which the loop runs
without error, a record submitted for an absent key included, has exactly one record under
its key in the resulting ledger, whatever follows it in the batch. -/
theorem addAttendance_unique_keys (m : Mongoose) (coll : List AttendanceDoc)
    (batch : List Obj) (h : UniqueKeys coll) :
    UniqueKeys (addAttendance m coll (.arr batch)).2 ∧
    ∀ (pre post : List Obj) (record : Obj), batch = pre ++ record :: post →
      (addAttendance m coll (.arr (pre ++ [record]))).1.status = 200 →
      ((addAttendance m coll (.arr batch)).2.filter
        (matchesKey (record.get "rollnum") (record.get "date"))).length = 1 := by
  have hu : UniqueKeys (addAttendance m coll (.arr batch)).2 := by
    rw [addAttendance_ledger]; exact addAttendanceLoop_unique m batch coll h
  refine ⟨hu, ?_⟩
  intro pre post record hb hok
  apply filter_key_length_one _ _ _ hu
  have hok1 := addAttendance_status_ok m coll _ hok
  rcases hpre : addAttendanceLoop m coll pre with ⟨e, coll1⟩
  cases e with
  | some e =>
    rw [addAttendanceLoop_append_failed m pre coll coll1 e hpre [record]] at hok1
    simp at hok1
  | none =>
    have hstep := addAttendanceLoop_append m pre coll coll1 hpre
    rw [hstep [record]] at hok1
    have hmem := addAttendanceLoop_single_mem m coll1 record hok1
    rcases hone : addAttendanceLoop m coll1 [record] with ⟨e2, coll2⟩
    rw [hone] at hok1 hmem
    simp only at hok1 hmem
    subst hok1
    have hall : addAttendanceLoop m coll batch = addAttendanceLoop m coll2 post := by
      have h2 : addAttendanceLoop m coll (pre ++ [record]) = (none, coll2) := by
        rw [hstep [record], hone]
      have := addAttendanceLoop_append m (pre ++ [record]) coll coll2 h2 post
      rw [hb]
      simpa using this
    rw [addAttendance_ledger, hall]
    obtain ⟨extra, he⟩ := addAttendanceLoop_keys m post coll2
    rw [he]
    exact List.mem_append_left _ hmem

/-- C1 witness: the two-record ledger receives a batch that stores a record for the absent
key (R3, 2024-01-02), repeats that key and then stops on a record without date; the ledger
keeps unique keys and holds exactly one record for (R3, 2024-01-02). -/
theorem addAttendance_unique_keys_witness :
    UniqueKeys exampleLedger ∧
    UniqueKeys (addAttendance toyMongoose exampleLedger (.arr repeatingBatch)).2 ∧
    ((addAttendance toyMongoose exampleLedger (.arr repeatingBatch)).2.filter
      (matchesKey (some "R3") (some "2024-01-02"))).length = 1 :=
  ⟨by decide,
   (addAttendance_unique_keys toyMongoose exampleLedger repeatingBatch (by decide)).1,
   (addAttendance_unique_keys toyMongoose exampleLedger repeatingBatch (by decide)).2
     [] [[("rollnum", "R3"), ("date", "2024-01-02"), ("attendance", "Absent")], undatedRecord]
     [("rollnum", "R3"), ("date", "2024-01-02"), ("attendance", "Present")] rfl (by decide)⟩

/-- C2. When the ledger already holds a record for the (rollnum, date) of a submitted
record that carries the status `s`, POST /addAttendance answers 200 and overwrites only the
status of that stored record: afterwards the record found under the key has status `s` and
the rollnum, date, name, branch and year stored before (whatever name, branch and year were
submitted), the number of records is unchanged, and the records with a different key are
unchanged. -/
theorem addAttendance_existing_overwrites_status (m : Mongoose) (coll : List AttendanceDoc)
    (record : Obj) (d : AttendanceDoc) (s : String)
    (hfind : AttendanceModel.findOne coll (record.get "rollnum") (record.get "date") = some d)
    (hs : record.get "attendance" = some s) :
    (addAttendance m coll (.arr [record])).1.status = 200 ∧
    AttendanceModel.findOne (addAttendance m coll (.arr [record])).2
        (record.get "rollnum") (record.get "date") =
      some { _id := d._id, rollnum := d.rollnum, date := d.date, name := d.name,
             branch := d.branch, year := d.year, attendance := some s } ∧
    (addAttendance m coll (.arr [record])).2.length = coll.length ∧
    (addAttendance m coll (.arr [record])).2.filter
        (fun e => !matchesKey (record.get "rollnum") (record.get "date") e) =
      coll.filter (fun e => !matchesKey (record.get "rollnum") (record.get "date") e) := by
  have hloop : addAttendanceLoop m coll [record] =
      (none, AttendanceModel.updateOne coll (record.get "rollnum") (record.get "date")
        (record.get "attendance")) := by
    simp [addAttendanceLoop, hfind]
  refine ⟨by rw [addAttendance_status, hloop]; rfl, ?_, ?_, ?_⟩
  · rw [addAttendance_ledger, hloop, hs, findOne_updateOne_same, hfind]; rfl
  · rw [addAttendance_ledger, hloop, updateOne_length]
  · rw [addAttendance_ledger, hloop, updateOne_filter_other]

/-- C2 witness: R1 is stored as Absent on 2024-01-01 with name Ann; a record for the same
key with status Present and name Bob, branch ME, year 4 is submitted. -/
theorem addAttendance_existing_overwrites_status_witness :
    AttendanceModel.findOne exampleLedger (resubmitted.get "rollnum") (resubmitted.get "date") =
      some storedAnn ∧
    ((addAttendance toyMongoose exampleLedger (.arr [resubmitted])).1.status = 200 ∧
    AttendanceModel.findOne (addAttendance toyMongoose exampleLedger (.arr [resubmitted])).2
        (resubmitted.get "rollnum") (resubmitted.get "date") =
      some { _id := storedAnn._id, rollnum := storedAnn.rollnum, date := storedAnn.date,
             name := storedAnn.name, branch := storedAnn.branch, year := storedAnn.year,
             attendance := some "Present" } ∧
    (addAttendance toyMongoose exampleLedger (.arr [resubmitted])).2.length =
      exampleLedger.length ∧
    (addAttendance toyMongoose exampleLedger (.arr [resubmitted])).2.filter
        (fun e => !matchesKey (resubmitted.get "rollnum") (resubmitted.get "date") e) =
      exampleLedger.filter
        (fun e => !matchesKey (resubmitted.get "rollnum") (resubmitted.get "date") e)) :=
  ⟨by decide, addAttendance_existing_overwrites_status toyMongoose exampleLedger resubmitted
    storedAnn "Present" (by decide) (by decide)⟩

theorem recordHasKey_iff (r dt : Option String) (record : Obj) :
    recordHasKey r dt record = true ↔ record.get "rollnum" = r ∧ record.get "date" = dt := by
  simp [recordHasKey]

theorem matchesKey_cast (r dt id : Option String) (record : Obj) :
    matchesKey r dt (AttendanceModel.cast id record) = recordHasKey r dt record := rfl

theorem statusAt_step (m : Mongoose) (coll : List AttendanceDoc) (record : Obj)
    (rest : List Obj) (s : String) (hs : record.get "attendance" = some s)
    (r dt : Option String)
    (hok : (addAttendanceLoop m coll (record :: rest)).1 = none) :
    ∃ coll1, addAttendanceLoop m coll (record :: rest) = addAttendanceLoop m coll1 rest ∧
      statusAt coll1 r dt =
        if recordHasKey r dt record then some (record.get "attendance") else statusAt coll r dt := by
  cases hf : AttendanceModel.findOne coll (record.get "rollnum") (record.get "date") with
  | none =>
    cases hc : AttendanceModel.create m coll record with
    | error e => rw [loop_cons_failed m coll record rest e hf hc] at hok; simp at hok
    | ok c =>
      refine ⟨c, loop_cons_created m coll c record rest hf hc, ?_⟩
      obtain ⟨id, rfl⟩ := create_ok m coll c record hc
      unfold statusAt AttendanceModel.findOne
      rw [List.find?_append, List.find?_singleton, matchesKey_cast]
      by_cases hk : recordHasKey r dt record = true
      · have hkey := (recordHasKey_iff r dt record).1 hk
        have hn : List.find? (matchesKey r dt) coll = none := by
          rw [← hkey.1, ← hkey.2]; exact hf
        simp [hk, hn, AttendanceModel.cast, hs]
      · simp [hk]
  | some d =>
    refine ⟨_, loop_cons_update m coll record rest d hf, ?_⟩
    by_cases hk : recordHasKey r dt record = true
    · have hkey := (recordHasKey_iff r dt record).1 hk
      unfold statusAt
      rw [← hkey.1, ← hkey.2, hs, findOne_updateOne_same, hf]
      simp [recordHasKey]
    · unfold statusAt
      rw [findOne_updateOne_other]
      · simp [hk]
      · intro h
        apply hk
        rw [Prod.ext_iff] at h
        exact (recordHasKey_iff r dt record).2 ⟨h.1.symm, h.2.symm⟩

theorem statusAt_loop (m : Mongoose) (batch : List Obj) :
    ∀ (coll : List AttendanceDoc) (r dt : Option String),
      (∀ record ∈ batch, ∃ s, record.get "attendance" = some s) →
      (addAttendanceLoop m coll batch).1 = none →
      statusAt (addAttendanceLoop m coll batch).2 r dt =
        match lastSubmitted r dt batch with
        | some record => some (record.get "attendance")
        | none => statusAt coll r dt := by
  induction batch with
  | nil => intro coll r dt _ _; rfl
  | cons record rest ih =>
    intro coll r dt hs hok
    obtain ⟨s, hrec⟩ := hs record (List.mem_cons_self _ _)
    obtain ⟨coll1, heq, hst⟩ := statusAt_step m coll record rest s hrec r dt hok
    rw [heq] at hok ⊢
    rw [ih coll1 r dt (fun x hx => hs x (List.mem_cons_of_mem _ hx)) hok, hst]
    unfold lastSubmitted
    rw [List.reverse_cons, List.find?_append, List.find?_singleton]
    cases List.find? (recordHasKey r dt) rest.reverse with
    | some x => rfl
    | none =>
      by_cases hk : recordHasKey r dt record = true <;> simp [hk]

theorem statusAt_submitAll (m : Mongoose) (batches : List (List Obj)) :
    ∀ (coll : List AttendanceDoc) (r dt : Option String),
      (∀ batch ∈ batches, ∀ record ∈ batch, ∃ s, record.get "attendance" = some s) →
      (∀ resp ∈ (submitAll m coll batches).1, resp.status = 200) →
      statusAt (submitAll m coll batches).2 r dt =
        match lastSubmitted r dt batches.flatten with
        | some record => some (record.get "attendance")
        | none => statusAt coll r dt := by
  induction batches with
  | nil => intro coll r dt _ _; rfl
  | cons batch rest ih =>
    intro coll r dt hs hok
    have h1 : (addAttendance m coll (.arr batch)).1.status = 200 :=
      hok _ (by simp [submitAll])
    have hloop := addAttendance_status_ok m coll batch h1
    have hrest : ∀ resp ∈ (submitAll m (addAttendance m coll (.arr batch)).2 rest).1,
        resp.status = 200 := fun resp hresp => hok resp (by simp [submitAll, hresp])
    have := ih (addAttendance m coll (.arr batch)).2 r dt
      (fun b hb => hs b (List.mem_cons_of_mem _ hb)) hrest
    simp only [submitAll]
    rw [this, addAttendance_ledger,
      statusAt_loop m batch coll r dt (hs batch (List.mem_cons_self _ _)) hloop]
    unfold lastSubmitted
    rw [List.flatten_cons, List.reverse_append, List.find?_append]
    cases List.find? (recordHasKey r dt) rest.flatten.reverse <;> rfl

theorem studentAttendance_eq (coll : List AttendanceDoc) (query : Obj) :
    studentAttendance coll query =
      ⟨200, .attendance ((statusAt coll (query.get "rollnum") (query.get "date")).getD
        (some "Absent"))⟩ := by
  unfold studentAttendance statusAt
  cases AttendanceModel.findOne coll (query.get "rollnum") (query.get "date") <;> rfl

/-- C3, as stated, fails on the example of the specification: the record carries its
status under `status`, a member the schema does not have, so the record is stored with the
default status and the query answers Absent, not Present. -/
theorem studentAttendance_spec_example_absent :
    (submitAll toyMongoose [] [[specRecord]]).1 =
        [⟨200, .text "Attendance added/updated successfully!"⟩] ∧
    studentAttendance (submitAll toyMongoose [] [[specRecord]]).2 specQuery =
        ⟨200, .attendance (some "Absent")⟩ ∧
    studentAttendance (submitAll toyMongoose [] [[specRecord]]).2 specQuery ≠
        ⟨200, .attendance (some "Present")⟩ := by
  decide

/-- C3 (amended). Starting from an empty ledger, after any sequence of POST /addAttendance
batches that are all answered 200 and whose records each carry a status in
{Present, Absent} in their member `attendance`, GET /studentAttendance for (rollnum, date)
answers 200 with the status of the most recently processed record with that key, and with
"Absent" when no record with that key was submitted. -/
theorem studentAttendance_returns_last_status (m : Mongoose) (batches : List (List Obj))
    (query : Obj)
    (hstatus : ∀ batch ∈ batches, ∀ record ∈ batch,
      record.get "attendance" = some "Present" ∨ record.get "attendance" = some "Absent")
    (hok : ∀ resp ∈ (submitAll m [] batches).1, resp.status = 200) :
    studentAttendance (submitAll m [] batches).2 query =
      match lastSubmitted (query.get "rollnum") (query.get "date") batches.flatten with
      | some record => ⟨200, .attendance (record.get "attendance")⟩
      | none => ⟨200, .attendance (some "Absent")⟩ := by
  have hs : ∀ batch ∈ batches, ∀ record ∈ batch, ∃ s, record.get "attendance" = some s := by
    intro batch hb record hr
    rcases hstatus batch hb record hr with h | h
    · exact ⟨_, h⟩
    · exact ⟨_, h⟩
  rw [studentAttendance_eq,
    statusAt_submitAll m batches [] (query.get "rollnum") (query.get "date") hs hok]
  cases lastSubmitted (query.get "rollnum") (query.get "date") batches.flatten <;> rfl

/-- C3 witness: the example of the specification with the status under `attendance`;
the query answers Present. -/
theorem studentAttendance_returns_last_status_witness :
    (∀ resp ∈ (submitAll toyMongoose [] [[wireRecord]]).1, resp.status = 200) ∧
    studentAttendance (submitAll toyMongoose [] [[wireRecord]]).2 specQuery =
      ⟨200, .attendance (some "Present")⟩ :=
  ⟨by decide,
   studentAttendance_returns_last_status toyMongoose [[wireRecord]] specQuery (by decide)
    (by decide)⟩

/-- C4. POST /addAttendance is not atomic across the batch: when the records before the
k-th apply successfully (giving ledger `coll'`) and the store operation for the k-th record
fails with `e`, the whole batch is answered by one 500 response carrying `e`, and the ledger
is `coll'`, whatever records follow the k-th; and there are a ledger and a batch for which
the request is answered 500 and the ledger is changed all the same. -/
theorem addAttendance_not_atomic (m : Mongoose) (coll coll' : List AttendanceDoc)
    (pre post : List Obj) (record : Obj) (e : Failure)
    (hpre : addAttendance m coll (.arr pre) =
      (⟨200, .text "Attendance added/updated successfully!"⟩, coll'))
    (hfind : AttendanceModel.findOne coll' (record.get "rollnum") (record.get "date") = none)
    (hfail : AttendanceModel.create m coll' record = .error e) :
    addAttendance m coll (.arr (pre ++ record :: post)) =
      (⟨500, .failure "Error updating attendance: " e⟩, coll') ∧
    ∃ (c : List AttendanceDoc) (b : List Obj),
      (addAttendance m c (.arr b)).1.status = 500 ∧ (addAttendance m c (.arr b)).2 ≠ c := by
  constructor
  · have hl := addAttendanceLoop_append m pre coll coll' (addAttendance_ok_loop _ _ _ _ _ hpre)
      (record :: post)
    have hk := loop_cons_failed m coll' record post e hfind hfail
    simp [addAttendance, hl, hk]
  · obtain ⟨e0, he0⟩ := create_undated_fails m
      (AttendanceModel.updateOne exampleLedger (resubmitted.get "rollnum")
        (resubmitted.get "date") (resubmitted.get "attendance"))
    have hl : addAttendanceLoop m exampleLedger [resubmitted, undatedRecord] =
        (some e0, AttendanceModel.updateOne exampleLedger (resubmitted.get "rollnum")
          (resubmitted.get "date") (resubmitted.get "attendance")) := by
      rw [loop_cons_update m exampleLedger resubmitted [undatedRecord] storedAnn (by decide),
        loop_cons_failed m _ undatedRecord [] e0 (by decide) he0]
    refine ⟨exampleLedger, [resubmitted, undatedRecord], ?_, ?_⟩
    · rw [addAttendance_status, hl]; rfl
    · rw [addAttendance_ledger, hl]
      show AttendanceModel.updateOne exampleLedger (resubmitted.get "rollnum")
        (resubmitted.get "date") (resubmitted.get "attendance") ≠ exampleLedger
      decide

/-- C4 witness: on the empty ledger the first record is stored, the second has no date and
fails, the third is never looked at. -/
theorem addAttendance_not_atomic_witness :
    addAttendance toyMongoose [] (.arr ([wireRecord] ++ undatedRecord :: [specRecord])) =
      (⟨500, .failure "Error updating attendance: " (.validation "Attendance" ["date"])⟩,
        [AttendanceModel.cast none wireRecord]) ∧
    ∃ (c : List AttendanceDoc) (b : List Obj),
      (addAttendance toyMongoose c (.arr b)).1.status = 500 ∧
        (addAttendance toyMongoose c (.arr b)).2 ≠ c :=
  addAttendance_not_atomic toyMongoose [] [AttendanceModel.cast none wireRecord] [wireRecord]
    [specRecord] undatedRecord (.validation "Attendance" ["date"]) (by decide) (by decide) rfl

/-! ## Auth gate -/

theorem handle_protected (env : Env) (st : AppState) (req : Request) (rollnum : String)
    (hroute : req.route ∈ protectedRoutes rollnum) :
    ∃ handler : Claims → Response × AppState,
      handle env st req = protect env st req.authorization handler := by
  rcases req with ⟨route, auth, body, query⟩
  simp only [protectedRoutes, List.mem_cons, List.mem_singleton, List.not_mem_nil, or_false]
    at hroute
  rcases hroute with h | h | h | h | h | h <;> subst h <;> exact ⟨_, rfl⟩

/-- C5. A request without Authorization header on any of the six protected routes is
answered 401 "Access denied. No token provided."; neither the token verifier nor the route
handler is called (no event is recorded), and the three collections are unchanged. -/
theorem no_authorization_header_denied (env : Env) (st : AppState) (req : Request)
    (rollnum : String) (hroute : req.route ∈ protectedRoutes rollnum)
    (hnone : req.authorization = none) :
    handle env st req = ⟨⟨401, .text "Access denied. No token provided."⟩, st, []⟩ := by
  obtain ⟨handler, hh⟩ := handle_protected env st req rollnum hroute
  rw [hh, hnone]
  rfl

/-- C5 witness: POST /addAttendance without header on the two-record ledger. -/
theorem no_authorization_header_denied_witness :
    (Route.addAttendance ∈ protectedRoutes "R1") ∧
    handle (toyEnv 1) ⟨[], [], exampleLedger⟩ ⟨.addAttendance, none, .arr [wireRecord], []⟩ =
      ⟨⟨401, .text "Access denied. No token provided."⟩, ⟨[], [], exampleLedger⟩, []⟩ :=
  ⟨by decide,
   no_authorization_header_denied (toyEnv 1) ⟨[], [], exampleLedger⟩
    ⟨.addAttendance, none, .arr [wireRecord], []⟩ "R1" (by decide) rfl⟩

theorem protect_rejected (env : Env) (st : AppState) (authorization : Option String)
    (handler : Claims → Response × AppState) (token : String) (e : JwtError)
    (htoken : bearerToken authorization = some token) (hne : token ≠ "")
    (hrej : env.jwt.verify token secretKey env.now = .error e) :
    protect env st authorization handler =
      ⟨⟨400, .text "Invalid token."⟩, st, [.jwtVerify token]⟩ := by
  simp [protect, authMiddleware, htoken, hne, hrej]

/-- C6. A request on a protected route that presents a token the verifier rejects is
answered 400 "Invalid token."; the route handler is not called and the state is unchanged;
and two such requests get equal responses whatever the two reasons of rejection are (a bad
signature for one and an expired token for the other included). -/
theorem rejected_token_invalid (env1 env2 : Env) (st1 st2 : AppState) (req1 req2 : Request)
    (rollnum1 rollnum2 : String) (token1 token2 : String) (e1 e2 : JwtError)
    (hroute1 : req1.route ∈ protectedRoutes rollnum1)
    (hroute2 : req2.route ∈ protectedRoutes rollnum2)
    (htoken1 : bearerToken req1.authorization = some token1) (hne1 : token1 ≠ "")
    (htoken2 : bearerToken req2.authorization = some token2) (hne2 : token2 ≠ "")
    (hrej1 : env1.jwt.verify token1 secretKey env1.now = .error e1)
    (hrej2 : env2.jwt.verify token2 secretKey env2.now = .error e2) :
    handle env1 st1 req1 = ⟨⟨400, .text "Invalid token."⟩, st1, [.jwtVerify token1]⟩ ∧
    handle env2 st2 req2 = ⟨⟨400, .text "Invalid token."⟩, st2, [.jwtVerify token2]⟩ ∧
    (handle env1 st1 req1).response = (handle env2 st2 req2).response := by
  obtain ⟨h1, hh1⟩ := handle_protected env1 st1 req1 rollnum1 hroute1
  obtain ⟨h2, hh2⟩ := handle_protected env2 st2 req2 rollnum2 hroute2
  have r1 := protect_rejected env1 st1 req1.authorization h1 token1 e1 htoken1 hne1 hrej1
  have r2 := protect_rejected env2 st2 req2.authorization h2 token2 e2 htoken2 hne2 hrej2
  rw [hh1, hh2, r1, r2]
  exact ⟨rfl, rfl, rfl⟩

/-- C6 witness: a token with a bad signature on GET /getStudentsData and an expired token
on DELETE /deleteStudent/R1 (time 5, expiry 2). -/
theorem rejected_token_invalid_witness :
    (toyEnv 1).jwt.verify forgedToken secretKey (toyEnv 1).now = .error .invalidSignature ∧
    (toyEnv 5).jwt.verify bobToken secretKey (toyEnv 5).now = .error .expired ∧
    (handle (toyEnv 1) emptyState ⟨.getStudentsData, some (bearerHeader forgedToken), .obj [], []⟩ =
        ⟨⟨400, .text "Invalid token."⟩, emptyState, [.jwtVerify forgedToken]⟩ ∧
      handle (toyEnv 5) ⟨[], [], exampleLedger⟩
          ⟨.deleteStudent "R1", some (bearerHeader bobToken), .obj [], []⟩ =
        ⟨⟨400, .text "Invalid token."⟩, ⟨[], [], exampleLedger⟩, [.jwtVerify bobToken]⟩ ∧
      (handle (toyEnv 1) emptyState
          ⟨.getStudentsData, some (bearerHeader forgedToken), .obj [], []⟩).response =
        (handle (toyEnv 5) ⟨[], [], exampleLedger⟩
          ⟨.deleteStudent "R1", some (bearerHeader bobToken), .obj [], []⟩).response) :=
  ⟨rfl, rfl,
   rejected_token_invalid (toyEnv 1) (toyEnv 5) emptyState ⟨[], [], exampleLedger⟩
    ⟨.getStudentsData, some (bearerHeader forgedToken), .obj [], []⟩
    ⟨.deleteStudent "R1", some (bearerHeader bobToken), .obj [], []⟩ "R1" "R1"
    forgedToken bobToken .invalidSignature .expired (by decide) (by decide)
    (by decide) (by decide) (by decide) (by decide) rfl rfl⟩

theorem splitSpace_word (w : List Char) (h : ' ' ∉ w) : splitSpace w = [w] := by
  induction w with
  | nil => rfl
  | cons c cs ih =>
    have hc : c ≠ ' ' := fun hc => h (by simp [hc])
    have hcs : ' ' ∉ cs := fun hcs => h (List.mem_cons_of_mem _ hcs)
    unfold splitSpace
    simp [hc, ih hcs]

theorem splitSpace_word_space (w rest : List Char) (h : ' ' ∉ w) :
    splitSpace (w ++ ' ' :: rest) = w :: splitSpace rest := by
  induction w with
  | nil => simp [splitSpace]
  | cons c cs ih =>
    have hc : c ≠ ' ' := fun hc => h (by simp [hc])
    have hcs : ' ' ∉ cs := fun hcs => h (List.mem_cons_of_mem _ hcs)
    rw [List.cons_append, splitSpace]
    simp [hc, ih hcs]

/-- C7, as stated, fails: a header with the scheme word "Basic" in front of an accepted
token passes the gate, although it is not "Bearer", a space and a token. -/
theorem authMiddleware_passes_other_scheme :
    authMiddleware toyJwt 1 (some basicHeader) =
        (.next ⟨1, "bob", 1, 2⟩, [.jwtVerify bobToken, .next]) ∧
    ∀ token : String, basicHeader ≠ bearerHeader token := by
  refine ⟨by decide, ?_⟩
  intro token h
  have := congrArg (fun s => s.data.take 2) h
  simp [basicHeader, bearerHeader, bobToken] at this

/-- C7 (amended). The gate passes control to the route handler, with `req.user = user`,
exactly when the second of the pieces into which single spaces cut the Authorization header
is a non-empty token that the verifier accepts with claims `user`. The first piece is not
compared with "Bearer": for any scheme word and token without spaces the header
"scheme token" presents `token`, and so does "scheme token rest". -/
theorem authMiddleware_next_iff (jwt : Jwt) (now : Nat) (authorization : Option String)
    (user : Claims) :
    ((authMiddleware jwt now authorization).1 = .next user ↔
      ∃ token, bearerToken authorization = some token ∧ token ≠ "" ∧
        jwt.verify token secretKey now = .ok user) ∧
    (∀ scheme token rest : String, ' ' ∉ scheme.data → ' ' ∉ token.data →
      bearerToken (some (scheme ++ " " ++ token)) = some token ∧
      bearerToken (some (scheme ++ " " ++ token ++ " " ++ rest)) = some token) := by
  constructor
  · unfold authMiddleware
    cases hb : bearerToken authorization with
    | none => simp
    | some token =>
      by_cases hne : token = ""
      · simp [hne]
      · cases hv : jwt.verify token secretKey now with
        | error e => simp [hne, hv]
        | ok decoded => simp [hne, hv]
  · intro scheme token rest hs ht
    constructor
    · have : (scheme ++ " " ++ token).data = scheme.data ++ ' ' :: token.data := by
        simp [String.data_append]
      simp [bearerToken, this, splitSpace_word_space _ _ hs, splitSpace_word _ ht]
    · have : (scheme ++ " " ++ token ++ " " ++ rest).data =
          scheme.data ++ ' ' :: (token.data ++ ' ' :: rest.data) := by
        simp [String.data_append]
      simp [bearerToken, this, splitSpace_word_space _ _ hs, splitSpace_word_space _ _ ht]

/-- C7 witness: cutting "Basic <token>" and "Basic <token> x" both present the token. -/
theorem authMiddleware_next_iff_witness :
    bearerToken (some ("Basic" ++ " " ++ bobToken)) = some bobToken ∧
    bearerToken (some ("Basic" ++ " " ++ bobToken ++ " " ++ "x")) = some bobToken :=
  (authMiddleware_next_iff toyJwt 1 (some basicHeader) ⟨1, "bob", 1, 2⟩).2
    "Basic" bobToken "x" (by decide) (by decide)

/-! ## Account directory -/

theorem countLeading_replicate (c : Char) (hc : c ≠ '.') (n : Nat) (l : List Char) :
    countLeading c (List.replicate n c ++ '.' :: l) = (n, '.' :: l) := by
  induction n with
  | zero =>
    have : ¬ '.' = c := fun h => hc h.symm
    simp [countLeading, this]
  | succ n ih =>
    simp [List.replicate_succ, countLeading, ih]

theorem toyVerify_toySign (id : Nat) (username secret : String) (expiresIn iat now : Nat)
    (h : now < iat + expiresIn) :
    toyVerify (toySign id username secret expiresIn iat) secret now =
      .ok ⟨id, username, iat, iat + expiresIn⟩ := by
  unfold toyVerify toySign
  simp only [countLeading_replicate 's' (by decide), countLeading_replicate 'i' (by decide),
    countLeading_replicate 't' (by decide), countLeading_replicate 'e' (by decide)]
  simp [h]

theorem toyBcrypt_compare_hash (pw : String) (r s : Nat) :
    toyBcrypt.compare pw (toyBcrypt.hash pw r s) = true := by
  simp [toyBcrypt]

theorem UserModel.findOne_eq_none (users : List UserDoc) (u : String) :
    UserModel.findOne users (some u) = none ↔ ∀ a ∈ users, a.username ≠ u := by
  unfold UserModel.findOne
  rw [List.find?_eq_none]
  simp

theorem UserModel.save_fresh (users : List UserDoc) (id : Nat) (u digest : String)
    (hu : u ≠ "") (hd : digest ≠ "") (hfresh : ∀ a ∈ users, a.username ≠ u) :
    UserModel.save users id (some u) digest = .ok (users ++ [⟨id, u, digest⟩]) := by
  unfold UserModel.save
  have hany : users.any (fun a => a.username == u) = false := by
    rw [List.any_eq_false]
    intro a ha
    simpa using hfresh a ha
  simp [requiredString, hu, hd, hany]

theorem UserModel.findOne_append_fresh (users : List UserDoc) (a : UserDoc)
    (hfresh : ∀ b ∈ users, b.username ≠ a.username) :
    UserModel.findOne (users ++ [a]) (some a.username) = some a := by
  have hn := (UserModel.findOne_eq_none users a.username).2 hfresh
  unfold UserModel.findOne at hn ⊢
  rw [List.find?_append, hn]
  simp

theorem signup_fresh (env : Env) (users : List UserDoc) (body : Body) (u p : String)
    (hu : body.asObj.get "username" = some u) (hp : body.asObj.get "password" = some p)
    (hvalid : u ≠ "") (hfresh : ∀ a ∈ users, a.username ≠ u) :
    signup env users body =
      (⟨201, .text "User registered successfully."⟩,
        users ++ [⟨env.objectId, u, env.bcrypt.hash p 10 env.salt⟩]) := by
  unfold signup
  simp only [hu, hp, (UserModel.findOne_eq_none users u).2 hfresh, bcryptHash,
    UserModel.save_fresh users env.objectId u _ hvalid (env.bcrypt.hash_nonempty p 10 env.salt)
      hfresh]

/-- C8. For a username that is a non-empty string and is not in the account directory, and
any password string, POST /signup answers 201 and stores one account with the fresh id, the
username and the digest of the password; a following POST /login with the same pair answers
200 with a token which the verifier accepts at any time less than 3600 seconds after the
login, and the decoded id and username are those of the account just created. Assumed: the
hasher's compare accepts a digest made from the same plaintext, and the verifier accepts an
unexpired token signed with the process secret. -/
theorem signup_then_login (bcrypt : Bcrypt) (jwt : Jwt) (mongoose : Mongoose) (st : AppState) (u p : String)
    (body1 body2 : Body) (auth1 auth2 : Option String) (query1 query2 : Obj)
    (now1 salt1 id1 now2 salt2 id2 later : Nat)
    (hu1 : body1.asObj.get "username" = some u) (hp1 : body1.asObj.get "password" = some p)
    (hu2 : body2.asObj.get "username" = some u) (hp2 : body2.asObj.get "password" = some p)
    (hvalid : u ≠ "")
    (hfresh : ∀ a ∈ st.users, a.username ≠ u)
    (hhash : ∀ pw r s, bcrypt.compare pw (bcrypt.hash pw r s) = true)
    (hjwt : ∀ id name iat now, now < iat + 3600 →
      jwt.verify (jwt.sign id name secretKey 3600 iat) secretKey now =
        .ok ⟨id, name, iat, iat + 3600⟩)
    (hlater : later < now2 + 3600) :
    (handle ⟨bcrypt, jwt, mongoose, now1, salt1, id1⟩ st ⟨.signup, auth1, body1, query1⟩).response =
      ⟨201, .text "User registered successfully."⟩ ∧
    (handle ⟨bcrypt, jwt, mongoose, now1, salt1, id1⟩ st ⟨.signup, auth1, body1, query1⟩).state.users =
      st.users ++ [⟨id1, u, bcrypt.hash p 10 salt1⟩] ∧
    ∃ token claims,
      (handle ⟨bcrypt, jwt, mongoose, now2, salt2, id2⟩
        (handle ⟨bcrypt, jwt, mongoose, now1, salt1, id1⟩ st ⟨.signup, auth1, body1, query1⟩).state
        ⟨.login, auth2, body2, query2⟩).response = ⟨200, .login "Login successful" token⟩ ∧
      jwt.verify token secretKey later = .ok claims ∧ claims.id = id1 ∧ claims.username = u := by
  have hs := signup_fresh ⟨bcrypt, jwt, mongoose, now1, salt1, id1⟩ st.users body1 u p hu1 hp1 hvalid hfresh
  have hf := UserModel.findOne_append_fresh st.users ⟨id1, u, bcrypt.hash p 10 salt1⟩ hfresh
  refine ⟨by simp [handle, hs], by simp [handle, hs], ?_⟩
  refine ⟨jwt.sign id1 u secretKey 3600 now2, ⟨id1, u, now2, now2 + 3600⟩, ?_,
    hjwt id1 u now2 later hlater, rfl, rfl⟩
  simp only [handle, hs] at hf ⊢
  simp [login, hu2, hp2, hf, bcryptCompare, hhash]

/-- C8 witness: alice signs up with pw1 on an empty directory at time 10 and logs in at
time 20; the token is checked at time 3000. -/
theorem signup_then_login_witness :
    (handle ⟨toyBcrypt, toyJwt, toyMongoose, 10, 0, 7⟩ emptyState
        ⟨.signup, none, .obj [("username", "alice"), ("password", "pw1")], []⟩).response =
      ⟨201, .text "User registered successfully."⟩ ∧
    (handle ⟨toyBcrypt, toyJwt, toyMongoose, 10, 0, 7⟩ emptyState
        ⟨.signup, none, .obj [("username", "alice"), ("password", "pw1")], []⟩).state.users =
      emptyState.users ++ [⟨7, "alice", toyBcrypt.hash "pw1" 10 0⟩] ∧
    ∃ token claims,
      (handle ⟨toyBcrypt, toyJwt, toyMongoose, 20, 1, 8⟩
        (handle ⟨toyBcrypt, toyJwt, toyMongoose, 10, 0, 7⟩ emptyState
          ⟨.signup, none, .obj [("username", "alice"), ("password", "pw1")], []⟩).state
        ⟨.login, none, .obj [("username", "alice"), ("password", "pw1")], []⟩).response =
          ⟨200, .login "Login successful" token⟩ ∧
      toyJwt.verify token secretKey 3000 = .ok claims ∧ claims.id = 7 ∧
        claims.username = "alice" :=
  signup_then_login toyBcrypt toyJwt toyMongoose emptyState "alice" "pw1"
    (.obj [("username", "alice"), ("password", "pw1")])
    (.obj [("username", "alice"), ("password", "pw1")]) none none [] [] 10 0 7 20 1 8 3000
    (by decide) (by decide) (by decide) (by decide) (by decide)
    (by intro a ha; simp [emptyState] at ha)
    toyBcrypt_compare_hash
    (fun id name iat now h => toyVerify_toySign id name secretKey 3600 iat now h)
    (by decide)

/-- C9. POST /login for a username that is not in the directory and POST /login for a
username that is in the directory with a password the hasher's compare rejects get the same
response, 400 "Invalid username or password."; neither issues a token (no event is
recorded) and neither changes the state. -/
theorem login_no_enumeration (env1 env2 : Env) (st : AppState) (body1 body2 : Body)
    (auth1 auth2 : Option String) (query1 query2 : Obj) (u1 u2 p2 : String) (account : UserDoc)
    (hu1 : body1.asObj.get "username" = some u1)
    (hunknown : ∀ a ∈ st.users, a.username ≠ u1)
    (hu2 : body2.asObj.get "username" = some u2)
    (hknown : UserModel.findOne st.users (some u2) = some account)
    (hp2 : body2.asObj.get "password" = some p2)
    (hrej : env2.bcrypt.compare p2 account.password = false) :
    handle env1 st ⟨.login, auth1, body1, query1⟩ =
      ⟨⟨400, .text "Invalid username or password."⟩, st, []⟩ ∧
    handle env2 st ⟨.login, auth2, body2, query2⟩ =
      ⟨⟨400, .text "Invalid username or password."⟩, st, []⟩ ∧
    (handle env1 st ⟨.login, auth1, body1, query1⟩).response =
      (handle env2 st ⟨.login, auth2, body2, query2⟩).response := by
  have h1 : login env1 st.users body1 = (⟨400, .text "Invalid username or password."⟩, []) := by
    simp [login, hu1, (UserModel.findOne_eq_none st.users u1).2 hunknown]
  have h2 : login env2 st.users body2 = (⟨400, .text "Invalid username or password."⟩, []) := by
    simp [login, hu2, hknown, hp2, bcryptCompare, hrej]
  simp [handle, h1, h2]

/-- C9 witness: with alice in the directory, a login as bob and a login as alice with a
wrong password. -/
theorem login_no_enumeration_witness :
    handle (toyEnv 20) aliceState
        ⟨.login, none, .obj [("username", "bob"), ("password", "pw1")], []⟩ =
      ⟨⟨400, .text "Invalid username or password."⟩, aliceState, []⟩ ∧
    handle (toyEnv 20) aliceState
        ⟨.login, none, .obj [("username", "alice"), ("password", "wrong")], []⟩ =
      ⟨⟨400, .text "Invalid username or password."⟩, aliceState, []⟩ ∧
    (handle (toyEnv 20) aliceState
        ⟨.login, none, .obj [("username", "bob"), ("password", "pw1")], []⟩).response =
      (handle (toyEnv 20) aliceState
        ⟨.login, none, .obj [("username", "alice"), ("password", "wrong")], []⟩).response :=
  login_no_enumeration (toyEnv 20) (toyEnv 20) aliceState
    (.obj [("username", "bob"), ("password", "pw1")])
    (.obj [("username", "alice"), ("password", "wrong")]) none none [] []
    "bob" "alice" "wrong" ⟨7, "alice", toyBcrypt.hash "pw1" 10 0⟩
    (by decide) (by decide) (by decide) (by decide) (by decide) (by decide)

theorem createDefaultUser_found (env : Env) (users : List UserDoc) (a : UserDoc)
    (h : UserModel.findOne users (some defaultUsername) = some a) :
    createDefaultUser env users = (users, .alreadyExists) := by
  simp [createDefaultUser, h]

theorem createDefaultUser_fresh (env : Env) (users : List UserDoc)
    (h : UserModel.findOne users (some defaultUsername) = none) :
    createDefaultUser env users =
      (users ++ [⟨env.objectId, defaultUsername, env.bcrypt.hash defaultPassword 10 env.salt⟩],
        .created) := by
  have hfresh := (UserModel.findOne_eq_none users defaultUsername).1 h
  simp only [createDefaultUser, h, bcryptHash,
    UserModel.save_fresh users env.objectId defaultUsername _ (by decide)
      (env.bcrypt.hash_nonempty defaultPassword 10 env.salt) hfresh]

theorem defaultAccounts_of_none (users : List UserDoc)
    (h : UserModel.findOne users (some defaultUsername) = none) : defaultAccounts users = [] := by
  unfold defaultAccounts
  rw [List.filter_eq_nil_iff]
  intro a ha
  simpa using (UserModel.findOne_eq_none users defaultUsername).1 h a ha

/-- C10. On a directory holding at most one account with the default username "GCC@2026",
two runs of createDefaultUser in sequence leave exactly one account with that username;
the second run reports that the account exists, raises no error and leaves the directory
as the first run left it; the first run raises no error either; and the accounts with
another username are the same before and after both runs. -/
theorem createDefaultUser_idempotent (env1 env2 : Env) (users : List UserDoc)
    (hmost : (defaultAccounts users).length ≤ 1) :
    (defaultAccounts (createDefaultUser env2 (createDefaultUser env1 users).1).1).length = 1 ∧
    createDefaultUser env2 (createDefaultUser env1 users).1 =
      ((createDefaultUser env1 users).1, .alreadyExists) ∧
    (∀ e, (createDefaultUser env1 users).2 ≠ .error e) ∧
    otherAccounts (createDefaultUser env1 users).1 = otherAccounts users ∧
    otherAccounts (createDefaultUser env2 (createDefaultUser env1 users).1).1 =
      otherAccounts users := by
  cases hf : UserModel.findOne users (some defaultUsername) with
  | none =>
    have h1 := createDefaultUser_fresh env1 users hf
    have hfound := UserModel.findOne_append_fresh users
      ⟨env1.objectId, defaultUsername, env1.bcrypt.hash defaultPassword 10 env1.salt⟩
      ((UserModel.findOne_eq_none users defaultUsername).1 hf)
    have h2 := createDefaultUser_found env2 _ _ hfound
    rw [h1]
    simp only [h2]
    have hd := defaultAccounts_of_none users hf
    refine ⟨?_, trivial, by simp, ?_, ?_⟩
    · unfold defaultAccounts at hd ⊢
      simp [List.filter_append, hd]
    · simp [otherAccounts, List.filter_append]
    · simp [otherAccounts, List.filter_append]
  | some a =>
    have h1 := createDefaultUser_found env1 users a hf
    rw [h1]
    simp only [createDefaultUser_found env2 users a hf]
    refine ⟨?_, trivial, by simp, trivial, trivial⟩
    have hmem : a ∈ defaultAccounts users := by
      unfold defaultAccounts
      rw [List.mem_filter]
      unfold UserModel.findOne at hf
      refine ⟨List.mem_of_find?_eq_some hf, ?_⟩
      have := List.find?_some hf
      simpa using this
    have hpos : 0 < (defaultAccounts users).length := List.length_pos_of_mem hmem
    omega

/-- C10 witness: the directory holds alice only; the first run creates the default account
and the second finds it. -/
theorem createDefaultUser_idempotent_witness :
    (defaultAccounts aliceState.users).length ≤ 1 ∧
    ((defaultAccounts
        (createDefaultUser (toyEnv 2) (createDefaultUser (toyEnv 1) aliceState.users).1).1).length
        = 1 ∧
    createDefaultUser (toyEnv 2) (createDefaultUser (toyEnv 1) aliceState.users).1 =
      ((createDefaultUser (toyEnv 1) aliceState.users).1, .alreadyExists) ∧
    (∀ e, (createDefaultUser (toyEnv 1) aliceState.users).2 ≠ .error e) ∧
    otherAccounts (createDefaultUser (toyEnv 1) aliceState.users).1 =
      otherAccounts aliceState.users ∧
    otherAccounts
        (createDefaultUser (toyEnv 2) (createDefaultUser (toyEnv 1) aliceState.users).1).1 =
      otherAccounts aliceState.users) :=
  ⟨by decide, createDefaultUser_idempotent (toyEnv 1) (toyEnv 2) aliceState.users (by decide)⟩

end AttendanceApp
